import Mathlib

set_option maxRecDepth 40000

/- Verification of the EXR-to-GIMP conversion core: a shallow embedding of
   src/exr_file.hpp, src/exr_file.cpp and src/conversion.cpp.

   Modelling conventions:
   * C `float` arithmetic is modelled as exact rational arithmetic over ℚ.
     The IEEE-754 decoding of stored bit patterns is exact; the only
     arithmetic the conversion kernels perform on a decoded sample is one
     multiplication by 255 and comparisons against 0 and 255.
   * Raw channel buffers are byte lists (each entry a Nat below 256); the
     C++ pointer reinterpretation casts ((float*)buf, (half*)buf,
     (unsigned int*)buf) are modelled by explicit little-endian decoders.
   * NULL pointers are Option values; dereferencing a NULL pointer is
     modelled as the explicit outcome ConvErr.nullDeref.
   * The external GIMP sink (gimp_image_new, gimp_layer_new, ...) is
     modelled as an emitted trace of sink operations that always succeed;
     the claims under study only concern the trace and the core's own
     failure paths. -/

/-- Pixel sample encodings (exr_file.hpp, enum PixelDataType). -/
inductive PixelDataType
  | float
  | half
  | uint
deriving DecidableEq

/-- Recognized channel layouts (conversion.cpp, enum LayerType). -/
inductive LayerType
  | undefined
  | y
  | yc
  | ya
  | yca
  | rgba
  | rgb
deriving DecidableEq

/-- One named data plane (exr_file.hpp, class Channel). The strided buffer is
kept as a flat byte list; width/height bookkeeping is not needed by the
claims under study. -/
structure Channel where
  m_name : String
  m_pixel_data_type : PixelDataType
  m_buffer : List Nat
deriving DecidableEq

def Channel.get_name (c : Channel) : String := c.m_name

def Channel.get_pixel_data_type (c : Channel) : PixelDataType := c.m_pixel_data_type

def Channel.get_data (c : Channel) : List Nat := c.m_buffer

/-- Model of std::map<std::string, size_t>::find, as used by Layer::m_index and
File::m_index: return the mapped value of the first (unique) matching key. -/
def mapFind (m : List (String × Nat)) (k : String) : Option Nat :=
  (m.find? (fun p => p.fst == k)).map Prod.snd

/-- Model of std::map<std::string, size_t>::insert: a no-op when the key is
already present, exactly like std::map::insert. -/
def mapInsert (m : List (String × Nat)) (k : String) (v : Nat) : List (String × Nat) :=
  if (mapFind m k).isSome then m else m ++ [(k, v)]

/-- A named group of channels (exr_file.hpp, class Layer): channel list plus a
name-to-index map. -/
structure Layer where
  m_name : String
  m_index : List (String × Nat)
  m_channels : List Channel
deriving DecidableEq

def Layer.get_name (l : Layer) : String := l.m_name

def Layer.get_channel_count (l : Layer) : Nat := l.m_channels.length

/-- Layer::get_channel_at: explicit bounds check, NULL (= none) out of range. -/
def Layer.get_channel_at (l : Layer) (index : Nat) : Option Channel :=
  if index < l.m_channels.length then l.m_channels[index]? else none

/-- Layer::get_channel: look the name up in m_index; NULL (= none) when the
name is absent. -/
def Layer.get_channel (l : Layer) (name : String) : Option Channel :=
  match mapFind l.m_index name with
  | some idx => l.m_channels[idx]?
  | none => none

/-- Layer::find_channel. Its out parameter is declared
`const Channel *channel` — passed BY VALUE — so the assignment inside the
function never reaches the caller; only the Bool result escapes. -/
def Layer.find_channel (l : Layer) (name : String) : Bool :=
  (mapFind l.m_index name).isSome

/-- Layer::insert_channel: record the channel's index under its name (insert
does not overwrite) and append the channel. -/
def Layer.insert_channel (l : Layer) (c : Channel) : Layer :=
  { l with
      m_index := mapInsert l.m_index c.m_name l.m_channels.length,
      m_channels := l.m_channels ++ [c] }

/-- A Layer as produced by the Layer(name) constructor: no channels yet. -/
def Layer.mkEmpty (name : String) : Layer := ⟨name, [], []⟩

/-- A Layer populated by repeated insert_channel calls, the way File::load
builds layers. -/
def Layer.ofChannels (name : String) (cs : List Channel) : Layer :=
  cs.foldl Layer.insert_channel (Layer.mkEmpty name)

/-- The channel/layer store (exr_file.hpp, class File), with the fields the
conversion claims need. -/
structure File where
  m_loaded : Bool
  m_width : Nat
  m_height : Nat
  m_index : List (String × Nat)
  m_layers : List Layer
deriving DecidableEq

def File.is_loaded (f : File) : Bool := f.m_loaded

def File.get_width (f : File) : Nat := f.m_width

def File.get_height (f : File) : Nat := f.m_height

def File.get_layer_count (f : File) : Nat := f.m_layers.length

/-- File::get_layer_at: explicit bounds check, NULL (= none) out of range. -/
def File.get_layer_at (f : File) (index : Nat) : Option Layer :=
  if index < f.m_layers.length then f.m_layers[index]? else none

/-- Class invariant of Layer relevant to name lookup: every entry of the name
index points at a channel of that name. insert_channel maintains it. -/
def layerIndexInv (l : Layer) : Prop :=
  ∀ kv ∈ l.m_index, ∃ c ∈ l.m_channels, c.m_name = kv.fst

-- ===== LayerType classifier (conversion.cpp, determine_layer_type) =====

/-- Insertion of a character into a sorted character list. -/
def insertSorted (c : Char) : List Char → List Char
  | [] => [c]
  | d :: ds => if c ≤ d then c :: d :: ds else d :: insertSorted c ds

/-- Model of std::sort on the name string: sorting a character list. The
sorted arrangement of a character multiset is unique, so any comparison sort
agrees with this insertion sort. -/
def sortChars : List Char → List Char
  | [] => []
  | c :: cs => insertSorted c (sortChars cs)

/-- The concatenation of all channel names of a layer (the `names` string
built by the loop in determine_layer_type), sorted. -/
def sorted_channel_names (layer : Layer) : List Char :=
  sortChars (layer.m_channels.foldl (fun acc c => acc ++ c.m_name.toList) [])

/-- conversion.cpp, determine_layer_type: more than 4 channels is Undefined;
otherwise the concatenated, sorted channel names are compared against the
fixed table of layouts. -/
def determine_layer_type (layer : Layer) : LayerType :=
  if layer.get_channel_count > 4 then LayerType.undefined
  else if sorted_channel_names layer = "Y".toList then LayerType.y
  else if sorted_channel_names layer = "BRYYY".toList then LayerType.yc
  else if sorted_channel_names layer = "AY".toList then LayerType.ya
  else if sorted_channel_names layer = "ABRYYY".toList then LayerType.yca
  else if sorted_channel_names layer = "ABGR".toList then LayerType.rgba
  else if sorted_channel_names layer = "BGR".toList then LayerType.rgb
  else LayerType.undefined

/-- Modelled from the spec's words (section 4.1 classification table, the
rows being mutually exclusive): more than 4 channels or zero channels is
Undefined; otherwise the sorted concatenated names are matched against
"Y" → Y, "AY" → YA, the sorted luminance+two-chroma string
(channels Y, RY, BY) → YC, luminance+two-chroma+alpha
(channels Y, RY, BY, A) → YCA, "BGR" → RGB, "ABGR" → RGBA, anything
else → Undefined. -/
def spec_classify (layer : Layer) : LayerType :=
  if layer.get_channel_count > 4 ∨ layer.get_channel_count = 0 then LayerType.undefined
  else if sorted_channel_names layer = "Y".toList then LayerType.y
  else if sorted_channel_names layer = "AY".toList then LayerType.ya
  else if sorted_channel_names layer = sortChars ("Y".toList ++ "RY".toList ++ "BY".toList) then
    LayerType.yc
  else if sorted_channel_names layer =
      sortChars ("Y".toList ++ "RY".toList ++ "BY".toList ++ "A".toList) then LayerType.yca
  else if sorted_channel_names layer = "BGR".toList then LayerType.rgb
  else if sorted_channel_names layer = "ABGR".toList then LayerType.rgba
  else LayerType.undefined

/-- conversion.cpp, layer_type_to_string. The labels inside its switch are
written without the `case` keyword ("LAYER_TYPE_UNDEFINED: ..."), so C++
parses them as ordinary goto labels; the only switch label is `default`,
hence control jumps to `default` for every input and the function returns
"unknown" unconditionally. -/
def layer_type_to_string (_ : LayerType) : String := "unknown"

-- ===== numeric conversion kernels (conversion.cpp) =====

/-- conversion.hpp, struct ConversionSettings, with its default constructor
values (gamma 2.2, exposure 0, knee 0/5, defog 0). -/
structure ConversionSettings where
  m_gamma : ℚ
  m_exposure : ℚ
  m_knee_low : ℚ
  m_knee_high : ℚ
  m_defog : ℚ
deriving DecidableEq

def defaultSettings : ConversionSettings := ⟨11 / 5, 0, 0, 5, 0⟩

/-- conversion.cpp, clamp: plain comparison clamp. -/
def clamp (x lo hi : ℚ) : ℚ := if x < lo then lo else if x > hi then hi else x

/-- Floor of a rational written executably. Int division is Euclidean and the
denominator is positive, so q.num / q.den is exactly the floor. -/
def ratFloor (q : ℚ) : ℤ := q.num / (q.den : ℤ)

/-- The C cast (guchar)x: truncation toward zero. The conversion code only
casts clamp results, which lie in [0, 255]; on nonnegative values truncation
agrees with the floor. -/
def guchar (x : ℚ) : Nat := (ratFloor x).toNat

/-- One loop-body step of the conversion kernels: clamp(val * 255.f, 0.f,
255.f) cast to guchar. -/
def scaleToByte (val : ℚ) : Nat := guchar (clamp (val * 255) 0 255)

/-- Byte read from a buffer (in-bounds in all uses the claims quantify over). -/
def byteAt (buf : List Nat) (k : Nat) : Nat := buf.getD k 0

/-- Little-endian 32-bit load at element index i: ((unsigned int*)buf)[i]. -/
def readU32 (buf : List Nat) (i : Nat) : Nat :=
  byteAt buf (4 * i) + 256 * byteAt buf (4 * i + 1) +
    256 ^ 2 * byteAt buf (4 * i + 2) + 256 ^ 3 * byteAt buf (4 * i + 3)

/-- Little-endian 16-bit load at element index i: ((half*)buf)[i]. -/
def readU16 (buf : List Nat) (i : Nat) : Nat :=
  byteAt buf (2 * i) + 256 * byteAt buf (2 * i + 1)

/-- Exact value of an IEEE-754 binary32 bit pattern, as a rational; none for
exponent 255 (infinities and NaNs, whose converted byte is unspecified). -/
def float32OfBits (b : Nat) : Option ℚ :=
  let sign : Nat := b / 2 ^ 31 % 2
  let e : Nat := b / 2 ^ 23 % 2 ^ 8
  let m : Nat := b % 2 ^ 23
  if e = 255 then none
  else
    let mag : ℚ :=
      if e = 0 then (m : ℚ) / (2 : ℚ) ^ (149 : Nat)
      else ((2 ^ 23 + m : Nat) : ℚ) * (2 : ℚ) ^ e / (2 : ℚ) ^ (150 : Nat)
    some (if sign = 1 then -mag else mag)

/-- Exact value of an IEEE-754 binary16 bit pattern, as a rational; none for
exponent 31 (infinities and NaNs). -/
def half16OfBits (b : Nat) : Option ℚ :=
  let sign : Nat := b / 2 ^ 15 % 2
  let e : Nat := b / 2 ^ 10 % 2 ^ 5
  let m : Nat := b % 2 ^ 10
  if e = 31 then none
  else
    let mag : ℚ :=
      if e = 0 then (m : ℚ) / (2 : ℚ) ^ (24 : Nat)
      else ((2 ^ 10 + m : Nat) : ℚ) * (2 : ℚ) ^ e / (2 : ℚ) ^ (25 : Nat)
    some (if sign = 1 then -mag else mag)

/-- Sample read through a float pointer: ((float*)buf)[i]. -/
def readFloatSample (buf : List Nat) (i : Nat) : Option ℚ := float32OfBits (readU32 buf i)

/-- Sample read through a half pointer: ((half*)buf)[i], widened to float. -/
def readHalfSample (buf : List Nat) (i : Nat) : Option ℚ := half16OfBits (readU16 buf i)

/-- Sample read through an unsigned int pointer: ((unsigned int*)buf)[i],
converted to float. Any value of 1 or more scales past 255 and clamps, and 0
maps to 0, so the uint-to-float rounding for huge values cannot change the
output byte; the exact value is used here. -/
def readUIntSample (buf : List Nat) (i : Nat) : Option ℚ := some ((readU32 buf i : ℚ))

/-- The sample read dispatched on the channel's declared encoding. -/
def readSample : PixelDataType → List Nat → Nat → Option ℚ
  | PixelDataType.float, buf, i => readFloatSample buf i
  | PixelDataType.half, buf, i => readHalfSample buf i
  | PixelDataType.uint, buf, i => readUIntSample buf i

/-- conversion.cpp, convert_to_ldr: for each pixel i and channel j the output
byte at channel_count * i + j is the clamped, scaled sample of input channel
j at index i, read as `data_type` dictates. The inv_gamma/exposure locals of
the source are computed but never used (dead code) and are omitted; the
settings argument is kept for the signature. The flat output list lists the
cells in write order: j fastest, then i. -/
def convert_to_ldr (_settings : ConversionSettings) (pixel_count : Nat)
    (data_type : PixelDataType) (input : List (List Nat)) : List (Option Nat) :=
  match data_type with
  | PixelDataType.float =>
      (List.range pixel_count).flatMap (fun i =>
        (List.range input.length).map (fun j =>
          (readFloatSample (input.getD j []) i).map scaleToByte))
  | PixelDataType.half =>
      (List.range pixel_count).flatMap (fun i =>
        (List.range input.length).map (fun j =>
          (readHalfSample (input.getD j []) i).map scaleToByte))
  | PixelDataType.uint =>
      (List.range pixel_count).flatMap (fun i =>
        (List.range input.length).map (fun j =>
          (readUIntSample (input.getD j []) i).map scaleToByte))

/-- One output pixel of conversion.cpp's chroma_to_ldr, given the sample
reader the active switch branch uses: luminance at flat index
ix = y * width + x, the two chroma planes at the subsampled flat index
six = (y / 2) * width + (x / 2), and, when a fourth input channel is
present (channel_count > 3), alpha at full-resolution index ix. -/
def chromaPix (read : List Nat → Nat → Option ℚ) (input : List (List Nat))
    (width y x : Nat) : List (Option Nat) :=
  [(read (input.getD 0 []) (y * width + x)).map scaleToByte,
   (read (input.getD 1 []) ((y / 2) * width + x / 2)).map scaleToByte,
   (read (input.getD 2 []) ((y / 2) * width + x / 2)).map scaleToByte] ++
  (if 3 < input.length then
    [(read (input.getD 3 []) (y * width + x)).map scaleToByte]
  else [])

/-- conversion.cpp, chroma_to_ldr. The switch body for PIXEL_DATA_TYPE_UINT
is a fall-through into the PIXEL_DATA_TYPE_FLOAT case: both cast the buffers
to const float* and decode the bytes as 32-bit floats. Only
PIXEL_DATA_TYPE_HALF decodes as half. The inv_gamma/exposure locals are dead
code, as in convert_to_ldr. -/
def chroma_to_ldr (_settings : ConversionSettings) (width height : Nat)
    (data_type : PixelDataType) (input : List (List Nat)) : List (Option Nat) :=
  match data_type with
  | PixelDataType.float | PixelDataType.uint =>
      (List.range height).flatMap (fun y =>
        (List.range width).flatMap (fun x => chromaPix readFloatSample input width y x))
  | PixelDataType.half =>
      (List.range height).flatMap (fun y =>
        (List.range width).flatMap (fun x => chromaPix readHalfSample input width y x))

/-- The sample reader chroma_to_ldr actually uses for each declared encoding:
half reads halves, float AND uint both read 32-bit floats (the fall-through). -/
def chromaSampleRead : PixelDataType → List Nat → Nat → Option ℚ
  | PixelDataType.half => readHalfSample
  | _ => readFloatSample

-- ===== Converter orchestrator (conversion.cpp, Converter::convert) =====

/-- GIMP image base modes the orchestrator can request (GIMP_GRAY/GIMP_RGB). -/
inductive GimpImageBaseType
  | gray
  | rgb
deriving DecidableEq

/-- GIMP layer pixel formats passed to add_layer. -/
inductive GimpImageType
  | grayImage
  | grayaImage
  | rgbImage
  | rgbaImage
deriving DecidableEq

/-- One call to the external GIMP sink: create the destination image, or add
a layer with its packed 8-bit buffer. -/
inductive SinkOp
  | createImage (base : GimpImageBaseType) (width height : Nat)
  | addLayer (type : GimpImageType) (name : String) (width height : Nat)
      (data : List (Option Nat))
deriving DecidableEq

/-- How a conversion run can fail: an error message (convert returns false
with error_msg set), or a NULL-pointer dereference (undefined behaviour in
the C++, modelled as an explicit crash outcome). -/
inductive ConvErr
  | msg (s : String)
  | nullDeref
deriving DecidableEq

/-- Result of Converter::convert: the trace of sink operations performed, and
the failure, if any. -/
structure ConvResult where
  ops : List SinkOp
  error : Option ConvErr
deriving DecidableEq

/-- The value of channel->get_data(): dereferences the channel pointer. -/
def channelData : Option Channel → Except ConvErr (List Nat)
  | some c => Except.ok c.get_data
  | none => Except.error ConvErr.nullDeref

/-- The value of channel->get_pixel_data_type(): dereferences the pointer. -/
def channelType : Option Channel → Except ConvErr PixelDataType
  | some c => Except.ok c.get_pixel_data_type
  | none => Except.error ConvErr.nullDeref

/-- The per-layer body of Converter::convert's switch: classify, gather the
input channel data, run the matching kernel and produce the add_layer call.
`grayscale` is the orchestrator's global base-mode decision: when false, a Y
layer's single channel is pushed three times and a YA layer's channels are
pushed as Y,Y,Y,A. In the YC/YCA case alpha_channel stays NULL even when
find_channel returns true, because find_channel's out parameter is passed by
value; pushing its data then dereferences NULL. -/
def processLayer (settings : ConversionSettings) (grayscale : Bool)
    (width height : Nat) (layer : Layer) : Except ConvErr SinkOp :=
  match determine_layer_type layer with
  | LayerType.rgba => do
      let r ← channelData (layer.get_channel "R")
      let g ← channelData (layer.get_channel "G")
      let b ← channelData (layer.get_channel "B")
      let a ← channelData (layer.get_channel "A")
      let ty ← channelType (layer.get_channel "R")
      Except.ok (SinkOp.addLayer GimpImageType.rgbaImage layer.get_name width height
        (convert_to_ldr settings (width * height) ty [r, g, b, a]))
  | LayerType.rgb => do
      let r ← channelData (layer.get_channel "R")
      let g ← channelData (layer.get_channel "G")
      let b ← channelData (layer.get_channel "B")
      let ty ← channelType (layer.get_channel "R")
      Except.ok (SinkOp.addLayer GimpImageType.rgbImage layer.get_name width height
        (convert_to_ldr settings (width * height) ty [r, g, b]))
  | LayerType.y =>
      if grayscale then do
        let d ← channelData (layer.get_channel "Y")
        let ty ← channelType (layer.get_channel "Y")
        Except.ok (SinkOp.addLayer GimpImageType.grayImage layer.get_name width height
          (convert_to_ldr settings (width * height) ty [d]))
      else do
        let d ← channelData (layer.get_channel "Y")
        let ty ← channelType (layer.get_channel "Y")
        Except.ok (SinkOp.addLayer GimpImageType.grayImage layer.get_name width height
          (convert_to_ldr settings (width * height) ty [d, d, d]))
  | LayerType.ya =>
      if grayscale then do
        let d ← channelData (layer.get_channel "Y")
        let a ← channelData (layer.get_channel "A")
        let ty ← channelType (layer.get_channel "Y")
        Except.ok (SinkOp.addLayer GimpImageType.grayaImage layer.get_name width height
          (convert_to_ldr settings (width * height) ty [d, a]))
      else do
        let d ← channelData (layer.get_channel "Y")
        let a ← channelData (layer.get_channel "A")
        let ty ← channelType (layer.get_channel "Y")
        Except.ok (SinkOp.addLayer GimpImageType.grayaImage layer.get_name width height
          (convert_to_ldr settings (width * height) ty [d, d, d, a]))
  | LayerType.yc | LayerType.yca => do
      let d ← channelData (layer.get_channel "Y")
      let r ← channelData (layer.get_channel "RY")
      let b ← channelData (layer.get_channel "BY")
      let alpha_channel : Option Channel := none
      let input ← if layer.find_channel "A" then do
          let ad ← channelData alpha_channel
          Except.ok [d, r, b, ad]
        else Except.ok [d, r, b]
      let ty ← channelType (layer.get_channel "Y")
      Except.ok (SinkOp.addLayer GimpImageType.rgbImage layer.get_name width height
        (chroma_to_ldr settings width height ty input))
  | LayerType.undefined =>
      Except.error (ConvErr.msg ("not implemented: " ++
        layer_type_to_string LayerType.undefined))

/-- The base-mode scan at the top of Converter::convert: grayscale stays true
exactly when every layer classifies as Y or YA. -/
def allGrayscale (file : File) : Bool :=
  file.m_layers.all (fun l =>
    decide (determine_layer_type l = LayerType.y) ||
      decide (determine_layer_type l = LayerType.ya))

/-- The per-layer loop of Converter::convert: convert layers in order, stop
at the first failing layer, keep the sink calls already made. -/
def convertLayers (settings : ConversionSettings) (grayscale : Bool)
    (width height : Nat) : List Layer → ConvResult
  | [] => { ops := [], error := none }
  | layer :: rest =>
    match processLayer settings grayscale width height layer with
    | Except.error e => { ops := [], error := some e }
    | Except.ok op =>
      let r := convertLayers settings grayscale width height rest
      { ops := op :: r.ops, error := r.error }

/-- conversion.cpp, Converter::convert: refuse a file that is not loaded,
decide the base mode, create the destination image, then convert each layer
in order. The sink calls are modelled as always succeeding. -/
def Converter.convert (file : File) (settings : ConversionSettings) : ConvResult :=
  if !file.is_loaded then
    { ops := [], error := some (ConvErr.msg "file not loaded in memory") }
  else
    { ops := SinkOp.createImage
          (if allGrayscale file then GimpImageBaseType.gray else GimpImageBaseType.rgb)
          file.m_width file.m_height ::
        (convertLayers settings (allGrayscale file) file.m_width file.m_height
          file.m_layers).ops,
      error := (convertLayers settings (allGrayscale file) file.m_width file.m_height
          file.m_layers).error }

-- ===== File::load (exr_file.cpp) =====

/-- The external OpenEXR decoder behaviour one load call observes:
whether isOpenExrFile accepts the path, the header's data window size, the
channel list (name and declared encoding), the layer-name set reported by
channel_list.layers(), and whether the bulk readPixels call throws (with the
exception's message). readPixels, the big file read at the end of the try
block, is the modelled throw point. -/
structure LoadInput where
  is_exr : Bool
  width : Nat
  height : Nat
  channels : List (String × PixelDataType)
  layer_names : List String
  read_pixels_error : Option String
deriving DecidableEq

/-- The File fields that load touches, for the exr_file.cpp revision of the
class (which tracks both a flat m_channels list and the m_layers list). -/
structure LoadFileState where
  m_loaded : Bool
  m_width : Nat
  m_height : Nat
  m_channels : List (String × PixelDataType)
  m_layers : List (String × List String)
deriving DecidableEq

/-- Outcome of one load call: returned Bool, error_msg out parameter, and the
File's state afterwards. -/
structure LoadResult where
  ok : Bool
  error_msg : String
  state : LoadFileState
deriving DecidableEq

/-- The freshly constructed File: not loaded, nothing populated. -/
def initLoadState : LoadFileState := ⟨false, 0, 0, [], []⟩

/-- channel_list.channelsInLayer: the channels whose full name lives under
the given layer prefix (spec section 6 dotted-name rule). -/
def channelsInLayer (layer_name : String) (channels : List (String × PixelDataType)) :
    List String :=
  (channels.filter (fun c => c.fst.startsWith (layer_name ++ "."))).map Prod.fst

/-- exr_file.cpp, File::load, on the freshly constructed File. A non-EXR
file fails before the try block with nothing populated. Otherwise the try
body records width/height, pushes every channel onto m_channels, builds and
pushes every layer, and finally calls readPixels; when that throws, the
catch block only copies e.what() into error_msg and returns false — the
already-pushed channels and layers stay in the File and only m_loaded
(still false) records the failure. On success m_loaded becomes true. -/
def File.load (input : LoadInput) : LoadResult :=
  if !input.is_exr then
    { ok := false, error_msg := "file is not a valid OpenEXR file", state := initLoadState }
  else
    match input.read_pixels_error with
    | some e =>
        { ok := false, error_msg := e,
          state :=
            { m_loaded := false, m_width := input.width, m_height := input.height,
              m_channels := input.channels,
              m_layers := input.layer_names.map
                (fun ln => (ln, channelsInLayer ln input.channels)) } }
    | none =>
        { ok := true, error_msg := "",
          state :=
            { m_loaded := true, m_width := input.width, m_height := input.height,
              m_channels := input.channels,
              m_layers := input.layer_names.map
                (fun ln => (ln, channelsInLayer ln input.channels)) } }

-- ===== definitions modelled from the claims' own words =====

/-- Modelled from the claim's words (C3): clamp(round(v * 255), 0, 255),
with round-to-nearest, halves up: round x = floor (x + 1/2). -/
def specRoundByte (v : ℚ) : Nat := (min 255 (max 0 (ratFloor (v * 255 + 1 / 2)))).toNat

-- ===== concrete fixtures used by witnesses and counterexamples =====

/-- The four bytes of 0.5f (IEEE-754 bits 0x3F000000), little-endian. -/
def halfOneBuf : List Nat := [0, 0, 0, 63]

/-- A 64-byte all-zero buffer: 16 float pixels of +0.0f. -/
def zeroBuf64 : List Nat := List.replicate 64 0

def chY : Channel := ⟨"Y", PixelDataType.float, halfOneBuf⟩

def chRY : Channel := ⟨"RY", PixelDataType.float, halfOneBuf⟩

def chBY : Channel := ⟨"BY", PixelDataType.float, halfOneBuf⟩

def chA : Channel := ⟨"A", PixelDataType.float, halfOneBuf⟩

def chR : Channel := ⟨"R", PixelDataType.float, halfOneBuf⟩

def chG : Channel := ⟨"G", PixelDataType.float, halfOneBuf⟩

def chB : Channel := ⟨"B", PixelDataType.float, halfOneBuf⟩

def chQ : Channel := ⟨"Q", PixelDataType.float, halfOneBuf⟩

/-- A 1x1 YCA layer: channels Y, RY, BY and A all present and well-formed. -/
def ycaLayer : Layer := Layer.ofChannels "" [chY, chRY, chBY, chA]

/-- A loaded 1x1 File whose only layer is the YCA layer. -/
def ycaFile : File := ⟨true, 1, 1, [("", 0)], [ycaLayer]⟩

/-- A 1x1 grayscale (Y) layer. -/
def yOnlyLayer : Layer := Layer.ofChannels "g" [chY]

/-- A 1x1 RGB layer. -/
def rgbLayer : Layer := Layer.ofChannels "c" [chR, chG, chB]

/-- A layer with one unrecognized channel name: classifies Undefined. -/
def undefLayer : Layer := Layer.ofChannels "u" [chQ]

/-- A loaded 1x1 File holding a Y layer and an RGB layer: mixed content, so
the base mode must be Color. -/
def mixedFile : File := ⟨true, 1, 1, [("g", 0), ("c", 1)], [yOnlyLayer, rgbLayer]⟩

/-- A loaded 1x1 File whose first layer is Undefined, followed by a valid
RGB layer. -/
def undefFirstFile : File := ⟨true, 1, 1, [("u", 0), ("c", 1)], [undefLayer, rgbLayer]⟩

/-- A File that was never loaded. -/
def unloadedFile : File := ⟨false, 0, 0, [], []⟩

/-- A load run that passes the isOpenExrFile check, sees one channel, and
then fails inside readPixels. -/
def loadFailInput : LoadInput :=
  { is_exr := true, width := 1, height := 1,
    channels := [("Y", PixelDataType.float)], layer_names := [],
    read_pixels_error := some "error reading pixel data" }

-- ===== supporting lemmas =====

/-- The executable floor agrees with Mathlib's floor on ℚ. -/
theorem ratFloor_eq_floor (q : ℚ) : ratFloor q = ⌊q⌋ := Rat.floor_def.symm

/-- The claim-side byte formula written with Mathlib's round. -/
theorem specRoundByte_eq_round (v : ℚ) :
    specRoundByte v = (min 255 (max 0 (round (v * 255)))).toNat := by
  unfold specRoundByte
  rw [ratFloor_eq_floor, round_eq]

/-- Length of a flatMap over a range whose chunks share one length. -/
theorem flatMapRange_length {α : Type} (c : Nat) (f : Nat → List α)
    (hf : ∀ i, (f i).length = c) : ∀ n, ((List.range n).flatMap f).length = n * c := by
  intro n
  induction n with
  | zero => simp
  | succ n ih =>
      rw [List.range_succ, List.flatMap_append, List.length_append, ih]
      simp [hf n, Nat.succ_mul]

/-- Cell (i, j) of a flatMap over a range whose chunks share length c sits at
flat index c * i + j. -/
theorem flatMapRange_getElem {α : Type} (c : Nat) (f : Nat → List α)
    (hf : ∀ i, (f i).length = c) : ∀ (n i j : Nat), i < n → j < c →
    ((List.range n).flatMap f)[c * i + j]? = (f i)[j]? := by
  intro n
  induction n with
  | zero => intro i j hi _; exact absurd hi (Nat.not_lt_zero i)
  | succ n ih =>
      intro i j hi hj
      rw [List.range_succ, List.flatMap_append]
      rcases Nat.lt_succ_iff_lt_or_eq.mp hi with h | h
      · have hb : c * i + j < ((List.range n).flatMap f).length := by
          rw [flatMapRange_length c f hf n]
          have h1 : c * i + j < c * (i + 1) := by
            have : c * (i + 1) = c * i + c := by ring
            omega
          have h2 : c * (i + 1) ≤ c * n := Nat.mul_le_mul_left c h
          have h3 : c * n = n * c := Nat.mul_comm c n
          omega
        rw [List.getElem?_append_left hb]
        exact ih i j h hj
      · subst h
        have hlen : ((List.range i).flatMap f).length = i * c := flatMapRange_length c f hf i
        have hge : ((List.range i).flatMap f).length ≤ c * i + j := by
          rw [hlen, Nat.mul_comm]
          omega
        rw [List.getElem?_append_right hge, hlen]
        have hsub : c * i + j - i * c = j := by
          rw [Nat.mul_comm]
          omega
        rw [hsub]
        simp

/-- Access into convert_to_ldr's output: the byte for pixel i, channel j sits
at flat index channel_count * i + j and is the clamped, scaled sample of
channel j at pixel i under the declared encoding. -/
theorem convert_to_ldr_getElem (settings : ConversionSettings) (pixel_count : Nat)
    (data_type : PixelDataType) (input : List (List Nat)) (i j : Nat)
    (hi : i < pixel_count) (hj : j < input.length) :
    (convert_to_ldr settings pixel_count data_type input)[input.length * i + j]? =
      some ((readSample data_type (input.getD j []) i).map scaleToByte) := by
  cases data_type with
  | float =>
      unfold convert_to_ldr
      rw [flatMapRange_getElem input.length _ (fun k => by simp) pixel_count i j hi hj]
      rw [List.getElem?_map, List.getElem?_range hj]
      rfl
  | half =>
      unfold convert_to_ldr
      rw [flatMapRange_getElem input.length _ (fun k => by simp) pixel_count i j hi hj]
      rw [List.getElem?_map, List.getElem?_range hj]
      rfl
  | uint =>
      unfold convert_to_ldr
      rw [flatMapRange_getElem input.length _ (fun k => by simp) pixel_count i j hi hj]
      rw [List.getElem?_map, List.getElem?_range hj]
      rfl

/-- chroma_to_ldr written uniformly through the reader its switch uses. -/
theorem chroma_to_ldr_eq (settings : ConversionSettings) (width height : Nat)
    (data_type : PixelDataType) (input : List (List Nat)) :
    chroma_to_ldr settings width height data_type input =
      (List.range height).flatMap (fun y =>
        (List.range width).flatMap (fun x =>
          chromaPix (chromaSampleRead data_type) input width y x)) := by
  cases data_type <;> rfl

/-- A chroma output pixel holds channel_count bytes for 3- and 4-channel
inputs. -/
theorem chromaPix_length (read : List Nat → Nat → Option ℚ) (input : List (List Nat))
    (width y x : Nat) (hcc : input.length = 3 ∨ input.length = 4) :
    (chromaPix read input width y x).length = input.length := by
  rcases hcc with h | h <;> simp [chromaPix, h]

/-- Access into chroma_to_ldr's output: the byte for pixel (x, y), channel k
sits at flat index channel_count * (y * width + x) + k and comes from the
corresponding entry of that pixel's chromaPix list. -/
theorem chroma_to_ldr_getElem (settings : ConversionSettings) (width height : Nat)
    (data_type : PixelDataType) (input : List (List Nat))
    (hcc : input.length = 3 ∨ input.length = 4) (x y k : Nat)
    (hx : x < width) (hy : y < height) (hk : k < input.length) :
    (chroma_to_ldr settings width height data_type input)[input.length * (y * width + x) + k]? =
      (chromaPix (chromaSampleRead data_type) input width y x)[k]? := by
  have hpixlen : ∀ y' x',
      (chromaPix (chromaSampleRead data_type) input width y' x').length = input.length :=
    fun y' x' => chromaPix_length _ input width y' x' hcc
  have hrowlen : ∀ y', ((List.range width).flatMap
      (fun x' => chromaPix (chromaSampleRead data_type) input width y' x')).length =
      width * input.length :=
    fun y' => flatMapRange_length input.length _ (fun x' => hpixlen y' x') width
  have hidx : input.length * (y * width + x) + k =
      (width * input.length) * y + (input.length * x + k) := by ring
  have hinner : input.length * x + k < width * input.length := by
    have h1 : input.length * x + k < input.length * (x + 1) := by
      have : input.length * (x + 1) = input.length * x + input.length := by ring
      omega
    have h2 : input.length * (x + 1) ≤ input.length * width := Nat.mul_le_mul_left _ hx
    have h3 : input.length * width = width * input.length := Nat.mul_comm _ _
    omega
  rw [chroma_to_ldr_eq, hidx]
  rw [flatMapRange_getElem (width * input.length) _ (fun y' => hrowlen y') height y _ hy hinner]
  rw [flatMapRange_getElem input.length _ (fun x' => hpixlen y x') width x k hx hk]

/-- Bind on an ok value reduces. -/
theorem except_ok_bind {ε α β : Type} (a : α) (f : α → Except ε β) :
    (Except.ok a >>= f : Except ε β) = f a := rfl

/-- Bind on an error short-circuits. -/
theorem except_error_bind {ε α β : Type} (e : ε) (f : α → Except ε β) :
    ((Except.error e : Except ε α) >>= f : Except ε β) = Except.error e := rfl

/-- insert_channel preserves the name-index invariant. -/
theorem layerIndexInv_insert (l : Layer) (c : Channel) (h : layerIndexInv l) :
    layerIndexInv (l.insert_channel c) := by
  intro kv hkv
  show ∃ d ∈ l.m_channels ++ [c], d.m_name = kv.fst
  have hkv' : kv ∈ mapInsert l.m_index c.m_name l.m_channels.length := hkv
  unfold mapInsert at hkv'
  by_cases hc : (mapFind l.m_index c.m_name).isSome
  · rw [if_pos hc] at hkv'
    obtain ⟨d, hd, hdn⟩ := h kv hkv'
    exact ⟨d, List.mem_append_left _ hd, hdn⟩
  · rw [if_neg hc] at hkv'
    rcases List.mem_append.mp hkv' with hold | hnew
    · obtain ⟨d, hd, hdn⟩ := h kv hold
      exact ⟨d, List.mem_append_left _ hd, hdn⟩
    · have hkveq : kv = (c.m_name, l.m_channels.length) := by simpa using hnew
      subst hkveq
      exact ⟨c, List.mem_append_right _ (by simp), rfl⟩

/-- Folding insert_channel preserves the name-index invariant. -/
theorem layerIndexInv_foldl (cs : List Channel) :
    ∀ l : Layer, layerIndexInv l → layerIndexInv (cs.foldl Layer.insert_channel l) := by
  induction cs with
  | nil => intro l h; exact h
  | cons c cs ih => intro l h; exact ih _ (layerIndexInv_insert l c h)

/-- Layers built by repeated insertion satisfy the name-index invariant. -/
theorem layerIndexInv_ofChannels (name : String) (cs : List Channel) :
    layerIndexInv (Layer.ofChannels name cs) := by
  apply layerIndexInv_foldl
  intro kv hkv
  simp [Layer.mkEmpty] at hkv

/-- Folding insert_channel appends the inserted channels in order. -/
theorem foldl_insert_channels (cs : List Channel) :
    ∀ l : Layer, (cs.foldl Layer.insert_channel l).m_channels = l.m_channels ++ cs := by
  induction cs with
  | nil => intro l; simp
  | cons c cs ih =>
      intro l
      rw [List.foldl_cons, ih]
      simp [Layer.insert_channel]

/-- The channel list of a layer built from a channel list is that list. -/
theorem ofChannels_channels (name : String) (cs : List Channel) :
    (Layer.ofChannels name cs).m_channels = cs := by
  unfold Layer.ofChannels
  rw [foldl_insert_channels]
  rfl

/-- Under the name-index invariant, get_channel of an absent name is NULL. -/
theorem get_channel_none (l : Layer) (hinv : layerIndexInv l) (name : String)
    (h : ∀ c ∈ l.m_channels, c.m_name ≠ name) : l.get_channel name = none := by
  unfold Layer.get_channel
  cases hfind : mapFind l.m_index name with
  | none => rfl
  | some idx =>
      exfalso
      unfold mapFind at hfind
      cases hf : l.m_index.find? (fun p => p.fst == name) with
      | none => rw [hf] at hfind; simp at hfind
      | some kv =>
          have hmem := List.mem_of_find?_eq_some hf
          have hkey : kv.fst = name := by
            have hb := List.find?_some hf
            exact eq_of_beq hb
          obtain ⟨c, hc, hcname⟩ := hinv kv hmem
          exact h c hc (hcname.trans hkey)

/-- convertLayers on pre ++ rest, when every layer of pre converts: the sink
ops of pre are kept in front, and the outcome is that of rest. -/
theorem convertLayers_of_mapM_ok (settings : ConversionSettings) (grayscale : Bool)
    (width height : Nat) :
    ∀ (pre : List Layer) (preOps : List SinkOp) (rest : List Layer),
      pre.mapM (processLayer settings grayscale width height) = Except.ok preOps →
      convertLayers settings grayscale width height (pre ++ rest) =
        { ops := preOps ++ (convertLayers settings grayscale width height rest).ops,
          error := (convertLayers settings grayscale width height rest).error } := by
  intro pre
  induction pre with
  | nil =>
      intro preOps rest h
      have h' : (Except.ok [] : Except ConvErr (List SinkOp)) = Except.ok preOps := h
      injection h' with h2
      subst h2
      simp
  | cons a l ih =>
      intro preOps rest h
      rw [List.mapM_cons] at h
      cases hfa : processLayer settings grayscale width height a with
      | error e =>
          rw [hfa, except_error_bind] at h
          cases h
      | ok op =>
          rw [hfa, except_ok_bind] at h
          cases hl : l.mapM (processLayer settings grayscale width height) with
          | error e =>
              rw [hl, except_error_bind] at h
              cases h
          | ok ops' =>
              rw [hl, except_ok_bind] at h
              have h' : (Except.ok (op :: ops') : Except ConvErr (List SinkOp)) =
                  Except.ok preOps := h
              injection h' with h2
              subst h2
              rw [List.cons_append]
              simp only [convertLayers, hfa]
              rw [ih ops' rest hl]
              simp

/-- Entry 0 of a chroma output pixel: the luminance byte, full resolution. -/
theorem chromaPix_getElem_zero (read : List Nat → Nat → Option ℚ)
    (input : List (List Nat)) (width y x : Nat) :
    (chromaPix read input width y x)[0]? =
      some ((read (input.getD 0 []) (y * width + x)).map scaleToByte) := by
  unfold chromaPix
  rw [List.getElem?_append_left (by simp)]
  rfl

/-- Entry 1 of a chroma output pixel: the first chroma byte, subsampled. -/
theorem chromaPix_getElem_one (read : List Nat → Nat → Option ℚ)
    (input : List (List Nat)) (width y x : Nat) :
    (chromaPix read input width y x)[1]? =
      some ((read (input.getD 1 []) ((y / 2) * width + x / 2)).map scaleToByte) := by
  unfold chromaPix
  rw [List.getElem?_append_left (by simp)]
  rfl

/-- Entry 2 of a chroma output pixel: the second chroma byte, subsampled. -/
theorem chromaPix_getElem_two (read : List Nat → Nat → Option ℚ)
    (input : List (List Nat)) (width y x : Nat) :
    (chromaPix read input width y x)[2]? =
      some ((read (input.getD 2 []) ((y / 2) * width + x / 2)).map scaleToByte) := by
  unfold chromaPix
  rw [List.getElem?_append_left (by simp)]
  rfl

/-- Entry 3 of a 4-channel chroma output pixel: the alpha byte, full
resolution. -/
theorem chromaPix_getElem_three (read : List Nat → Nat → Option ℚ)
    (input : List (List Nat)) (width y x : Nat) (h3 : 3 < input.length) :
    (chromaPix read input width y x)[3]? =
      some ((read (input.getD 3 []) (y * width + x)).map scaleToByte) := by
  unfold chromaPix
  rw [List.getElem?_append_right (by simp)]
  rw [if_pos h3]
  rfl

-- ===== the claims =====

/-- C1: for every layer, classification matches the fixed sorted-name table:
concatenating all channel names and sorting the characters yields "Y" → Y,
"AY" → YA, the sorted luminance+two-chroma string (channels Y, RY, BY) → YC,
luminance+two-chroma+alpha → YCA, "BGR" → RGB, "ABGR" → RGBA; a layer with
more than 4 channels, zero channels, or any other sorted name string
classifies as Undefined (spec_classify is that table, written from the
spec's words). -/
theorem claim_C1_classifier_matches_table (layer : Layer) :
    determine_layer_type layer = spec_classify layer := by
  by_cases h4 : layer.get_channel_count > 4
  · unfold determine_layer_type spec_classify
    rw [if_pos h4, if_pos (Or.inl h4)]
  · by_cases h0 : layer.get_channel_count = 0
    · have h0' : layer.m_channels.length = 0 := h0
      have hnil : layer.m_channels = [] := List.length_eq_zero.mp h0'
      have hnames : sorted_channel_names layer = [] := by
        unfold sorted_channel_names
        rw [hnil]
        rfl
      unfold determine_layer_type spec_classify
      rw [if_neg h4, if_pos (Or.inr h0), hnames]
      decide
    · unfold determine_layer_type spec_classify
      rw [if_neg h4,
        if_neg (show ¬(layer.get_channel_count > 4 ∨ layer.get_channel_count = 0) from by
          simp [h4, h0])]
      have hyc : sortChars ("Y".toList ++ "RY".toList ++ "BY".toList) = "BRYYY".toList := by
        decide
      have hyca : sortChars ("Y".toList ++ "RY".toList ++ "BY".toList ++ "A".toList) =
          "ABRYYY".toList := by decide
      rw [hyc, hyca]
      by_cases e1 : sorted_channel_names layer = "Y".toList
      · rw [e1]; decide
      · by_cases e2 : sorted_channel_names layer = "BRYYY".toList
        · rw [e2]; decide
        · by_cases e3 : sorted_channel_names layer = "AY".toList
          · rw [e3]; decide
          · by_cases e4 : sorted_channel_names layer = "ABRYYY".toList
            · rw [e4]; decide
            · by_cases e5 : sorted_channel_names layer = "ABGR".toList
              · rw [e5]; decide
              · by_cases e6 : sorted_channel_names layer = "BGR".toList
                · rw [e6]; decide
                · simp only [if_neg e1, if_neg e2, if_neg e3, if_neg e4, if_neg e5,
                    if_neg e6]

/-- C7: convert on a File with is_loaded() false always fails with the
not-loaded message and performs no sink operation at all. -/
theorem claim_C7_not_loaded_rejected (file : File) (settings : ConversionSettings)
    (h : file.is_loaded = false) :
    Converter.convert file settings =
      { ops := [], error := some (ConvErr.msg "file not loaded in memory") } := by
  unfold Converter.convert
  rw [h]
  rfl

/-- C7 witness: the never-loaded File, with default settings. -/
theorem claim_C7_witness :
    Converter.convert unloadedFile defaultSettings =
      { ops := [], error := some (ConvErr.msg "file not loaded in memory") } :=
  claim_C7_not_loaded_rejected unloadedFile defaultSettings rfl

/-- C10: the data-model lookups are total and return NULL out of range:
get_channel_at past the channel count, get_channel for an absent name (on
any layer built by insert_channel, which is how File::load builds layers),
and get_layer_at past the layer count. -/
theorem claim_C10_lookups_return_null :
    (∀ (l : Layer) (i : Nat), l.m_channels.length ≤ i → l.get_channel_at i = none) ∧
    (∀ (name lname : String) (cs : List Channel),
      (∀ c ∈ cs, c.m_name ≠ name) → (Layer.ofChannels lname cs).get_channel name = none) ∧
    (∀ (f : File) (i : Nat), f.m_layers.length ≤ i → f.get_layer_at i = none) := by
  refine ⟨?_, ?_, ?_⟩
  · intro l i h
    unfold Layer.get_channel_at
    rw [if_neg (by omega)]
  · intro name lname cs h
    refine get_channel_none _ (layerIndexInv_ofChannels lname cs) name ?_
    rw [ofChannels_channels]
    exact h
  · intro f i h
    unfold File.get_layer_at
    rw [if_neg (by omega)]

/-- C10 witness: an empty layer probed at index 2, a one-channel layer probed
for an absent name, an empty file probed at index 0. -/
theorem claim_C10_witness :
    (Layer.mkEmpty "L").get_channel_at 2 = none ∧
    (Layer.ofChannels "g" [chY]).get_channel "Q" = none ∧
    unloadedFile.get_layer_at 0 = none :=
  ⟨claim_C10_lookups_return_null.1 (Layer.mkEmpty "L") 2 (by decide),
   claim_C10_lookups_return_null.2.1 "Q" "g" [chY] (by decide),
   claim_C10_lookups_return_null.2.2 unloadedFile 0 (by decide)⟩

/-- C8 counterexample: a load that passes the isOpenExrFile check, pushes one
channel, and then fails inside readPixels returns false with the loaded flag
still false — but the pushed channel is retained in the File, so the load is
not atomic in the claimed sense. -/
theorem claim_C8_counterexample :
    (File.load loadFailInput).ok = false ∧
    (File.load loadFailInput).error_msg = "error reading pixel data" ∧
    (File.load loadFailInput).state.m_loaded = false ∧
    (File.load loadFailInput).state.m_channels = [("Y", PixelDataType.float)] ∧
    (File.load loadFailInput).state.m_channels ≠ [] := by
  refine ⟨rfl, rfl, rfl, rfl, ?_⟩
  intro h
  have h' : ([("Y", PixelDataType.float)] : List (String × PixelDataType)) = [] := h
  cases h'

/-- C8 amended: File::load either fully succeeds (returns true, loaded flag
true, empty error message) or fails (returns false, loaded flag stays false,
error message from the failed check or the caught exception); on a failure
after parsing began the partially populated channels and layers remain in
the File. -/
theorem claim_C8_load_outcomes (input : LoadInput) :
    ((File.load input).ok = true ∧ (File.load input).state.m_loaded = true ∧
      (File.load input).error_msg = "") ∨
    ((File.load input).ok = false ∧ (File.load input).state.m_loaded = false ∧
      ((File.load input).error_msg = "file is not a valid OpenEXR file" ∨
        input.read_pixels_error = some (File.load input).error_msg)) := by
  unfold File.load
  cases hexr : input.is_exr with
  | false => exact Or.inr ⟨rfl, rfl, Or.inl rfl⟩
  | true =>
      cases hr : input.read_pixels_error with
      | none => exact Or.inl ⟨rfl, rfl, rfl⟩
      | some e => exact Or.inr ⟨rfl, rfl, Or.inr rfl⟩

/-- C5: evaluating the code at the failing input. A well-formed 1x1 YCA
layer (channels Y, RY, BY, A all present; get_channel "A" finds the alpha
channel and find_channel "A" reports true) makes the YC/YCA branch of
Converter::convert dereference NULL: find_channel's out parameter is passed
by value, so alpha_channel is still NULL when its get_data() is pushed. The
conversion therefore crashes instead of producing a fourth (alpha) byte per
pixel, and the whole convert run ends in the null dereference after the
canvas was created. -/
theorem claim_C5_yca_alpha_null_deref :
    determine_layer_type ycaLayer = LayerType.yca ∧
    ycaLayer.get_channel "A" = some chA ∧
    ycaLayer.find_channel "A" = true ∧
    processLayer defaultSettings false 1 1 ycaLayer = Except.error ConvErr.nullDeref ∧
    Converter.convert ycaFile defaultSettings =
      { ops := [SinkOp.createImage GimpImageBaseType.rgb 1 1],
        error := some ConvErr.nullDeref } := by
  refine ⟨?_, ?_, ?_, ?_, ?_⟩ <;> with_unfolding_all rfl

/-- C9: evaluating the code at the failing input. For a 1x1 YC layer whose
channels are declared UInt32 with sample value 1 (bytes 01 00 00 00), the
chroma kernel's UINT case falls through to the float case: the bytes are
reinterpreted as the float 2^-149, so every output byte is 0 — whereas
reading the sample as a 32-bit unsigned integer, as the declared encoding
dictates (and as convert_to_ldr does), yields 1, which scales and clamps to
255. -/
theorem claim_C9_uint_chroma_reinterpreted_as_float :
    chroma_to_ldr defaultSettings 1 1 PixelDataType.uint [[1, 0, 0, 0], [1, 0, 0, 0], [1, 0, 0, 0]] =
      [some 0, some 0, some 0] ∧
    chromaSampleRead PixelDataType.uint = readFloatSample ∧
    readFloatSample [1, 0, 0, 0] 0 = some (1 / 2 ^ 149) ∧
    readSample PixelDataType.uint [1, 0, 0, 0] 0 = some 1 ∧
    scaleToByte (1 / 2 ^ 149) = 0 ∧
    scaleToByte 1 = 255 := by
  refine ⟨?_, ?_, ?_, ?_, ?_, ?_⟩ <;> with_unfolding_all rfl

/-- C3 counterexample: the float sample 0.5 (bits 0x3F000000, bytes
00 00 00 3F) converts to output byte 127 — clamp-then-truncate — while the
claim's formula clamp(round(v * 255), 0, 255) gives 128 at v = 0.5. -/
theorem claim_C3_counterexample :
    (convert_to_ldr defaultSettings 1 PixelDataType.float [halfOneBuf])[0]? =
      some (some 127) ∧
    readSample PixelDataType.float halfOneBuf 0 = some (1 / 2) ∧
    specRoundByte (1 / 2) = 128 ∧
    (convert_to_ldr defaultSettings 1 PixelDataType.float [halfOneBuf])[0]? ≠
      some (some (specRoundByte (1 / 2))) := by
  have h1 : (convert_to_ldr defaultSettings 1 PixelDataType.float [halfOneBuf])[0]? =
      some (some 127) := by with_unfolding_all rfl
  have h3 : specRoundByte (1 / 2) = 128 := by with_unfolding_all rfl
  refine ⟨h1, by with_unfolding_all rfl, h3, ?_⟩
  rw [h1, h3]
  decide

/-- C3 amended: for RGB/RGBA/Y/YA conversion, for every pixel index i,
output channel j and sample value v read as the channel's declared encoding,
the output byte at position channel_count * i + j equals
trunc(clamp(v * 255, 0, 255)) — clamp first, then truncation toward zero,
not rounding to nearest; in particular v = 0 gives 0, v = 1 gives 255,
v = 2 gives 255 and v = -0.5 gives 0. -/
theorem claim_C3_scale_clamp_truncate (settings : ConversionSettings) (pixel_count : Nat)
    (data_type : PixelDataType) (input : List (List Nat)) (i j : Nat)
    (hi : i < pixel_count) (hj : j < input.length) :
    ((convert_to_ldr settings pixel_count data_type input)[input.length * i + j]? =
      some ((readSample data_type (input.getD j []) i).map scaleToByte)) ∧
    scaleToByte 0 = 0 ∧ scaleToByte 1 = 255 ∧ scaleToByte 2 = 255 ∧
    scaleToByte (-(1 / 2)) = 0 := by
  refine ⟨convert_to_ldr_getElem settings pixel_count data_type input i j hi hj,
    ?_, ?_, ?_, ?_⟩ <;> with_unfolding_all rfl

/-- C3 witness: one float pixel of value 0.5 in a single channel. -/
theorem claim_C3_witness :
    ((convert_to_ldr defaultSettings 1 PixelDataType.float [halfOneBuf])[
        ([halfOneBuf] : List (List Nat)).length * 0 + 0]? =
      some ((readSample PixelDataType.float (([halfOneBuf] : List (List Nat)).getD 0 []) 0).map
        scaleToByte)) ∧
    scaleToByte 0 = 0 ∧ scaleToByte 1 = 255 ∧ scaleToByte 2 = 255 ∧
    scaleToByte (-(1 / 2)) = 0 :=
  claim_C3_scale_clamp_truncate defaultSettings 1 PixelDataType.float [halfOneBuf] 0 0
    (by decide) (by decide)

/-- C4: for YC/YCA conversion the two chroma bytes of output pixel (x, y)
come from the chroma planes at flat index (y / 2) * width + (x / 2) while
the luminance byte comes from index y * width + x; consequently any two
pixels sharing the same integer half-coordinates draw their chroma bytes
from the same source sample. -/
theorem claim_C4_chroma_subsampling_indices (settings : ConversionSettings)
    (width height : Nat) (data_type : PixelDataType) (input : List (List Nat))
    (hcc : input.length = 3 ∨ input.length = 4) (x y : Nat)
    (hx : x < width) (hy : y < height) :
    ((chroma_to_ldr settings width height data_type input)[
        input.length * (y * width + x) + 1]? =
      some ((chromaSampleRead data_type (input.getD 1 []) ((y / 2) * width + x / 2)).map
        scaleToByte)) ∧
    ((chroma_to_ldr settings width height data_type input)[
        input.length * (y * width + x) + 2]? =
      some ((chromaSampleRead data_type (input.getD 2 []) ((y / 2) * width + x / 2)).map
        scaleToByte)) ∧
    ((chroma_to_ldr settings width height data_type input)[
        input.length * (y * width + x) + 0]? =
      some ((chromaSampleRead data_type (input.getD 0 []) (y * width + x)).map
        scaleToByte)) ∧
    (∀ x2 y2, x2 < width → y2 < height → x2 / 2 = x / 2 → y2 / 2 = y / 2 →
      ∀ k, k = 1 ∨ k = 2 →
      (chroma_to_ldr settings width height data_type input)[
        input.length * (y2 * width + x2) + k]? =
      (chroma_to_ldr settings width height data_type input)[
        input.length * (y * width + x) + k]?) := by
  have hk1 : 1 < input.length := by rcases hcc with h | h <;> omega
  have hk2 : 2 < input.length := by rcases hcc with h | h <;> omega
  have hk0 : 0 < input.length := by rcases hcc with h | h <;> omega
  refine ⟨?_, ?_, ?_, ?_⟩
  · rw [chroma_to_ldr_getElem settings width height data_type input hcc x y 1 hx hy hk1]
    exact chromaPix_getElem_one _ input width y x
  · rw [chroma_to_ldr_getElem settings width height data_type input hcc x y 2 hx hy hk2]
    exact chromaPix_getElem_two _ input width y x
  · rw [chroma_to_ldr_getElem settings width height data_type input hcc x y 0 hx hy hk0]
    exact chromaPix_getElem_zero _ input width y x
  · intro x2 y2 hx2 hy2 ex ey k hk
    rcases hk with hk | hk
    · subst hk
      rw [chroma_to_ldr_getElem settings width height data_type input hcc x2 y2 1 hx2 hy2 hk1]
      rw [chroma_to_ldr_getElem settings width height data_type input hcc x y 1 hx hy hk1]
      rw [chromaPix_getElem_one, chromaPix_getElem_one, ex, ey]
    · subst hk
      rw [chroma_to_ldr_getElem settings width height data_type input hcc x2 y2 2 hx2 hy2 hk2]
      rw [chroma_to_ldr_getElem settings width height data_type input hcc x y 2 hx hy hk2]
      rw [chromaPix_getElem_two, chromaPix_getElem_two, ex, ey]

/-- C4 witness: a 4x4 all-zero float YC image, output pixel (3, 3): its first
chroma byte comes from the chroma sample at half-coordinates (1, 1), flat
index (3 / 2) * 4 + 3 / 2 = 5. -/
theorem claim_C4_witness :
    (chroma_to_ldr defaultSettings 4 4 PixelDataType.float [zeroBuf64, zeroBuf64, zeroBuf64])[
        ([zeroBuf64, zeroBuf64, zeroBuf64] : List (List Nat)).length * (3 * 4 + 3) + 1]? =
      some ((chromaSampleRead PixelDataType.float
        (([zeroBuf64, zeroBuf64, zeroBuf64] : List (List Nat)).getD 1 [])
        ((3 / 2) * 4 + 3 / 2)).map scaleToByte) :=
  (claim_C4_chroma_subsampling_indices defaultSettings 4 4 PixelDataType.float
    [zeroBuf64, zeroBuf64, zeroBuf64] (Or.inl rfl) 3 3 (by decide) (by decide)).1

/-- C2: the orchestrator creates a Grayscale canvas exactly when every layer
classifies as Y or YA (first sink op; allGrayscale is the code's scan and is
equivalent to the all-layers condition); and in a Color-mode run
(allGrayscale false) a Y layer's luminance channel is pushed three times (a
3-channel buffer) and a YA layer's channels are pushed as Y, Y, Y, A (a
4-channel buffer), so the three color channels of the output are identical
byte for byte. -/
theorem claim_C2_grayscale_decision (file : File) (settings : ConversionSettings)
    (hload : file.is_loaded = true) :
    ((Converter.convert file settings).ops.head? =
      some (SinkOp.createImage
        (if allGrayscale file then GimpImageBaseType.gray else GimpImageBaseType.rgb)
        file.m_width file.m_height)) ∧
    (allGrayscale file = true ↔ ∀ l ∈ file.m_layers,
      determine_layer_type l = LayerType.y ∨ determine_layer_type l = LayerType.ya) ∧
    (∀ (layer : Layer) (cY : Channel), allGrayscale file = false →
      determine_layer_type layer = LayerType.y →
      layer.get_channel "Y" = some cY →
      processLayer settings (allGrayscale file) file.m_width file.m_height layer =
        Except.ok (SinkOp.addLayer GimpImageType.grayImage layer.get_name
          file.m_width file.m_height
          (convert_to_ldr settings (file.m_width * file.m_height) cY.get_pixel_data_type
            [cY.get_data, cY.get_data, cY.get_data]))) ∧
    (∀ (layer : Layer) (cY cA : Channel), allGrayscale file = false →
      determine_layer_type layer = LayerType.ya →
      layer.get_channel "Y" = some cY → layer.get_channel "A" = some cA →
      processLayer settings (allGrayscale file) file.m_width file.m_height layer =
        Except.ok (SinkOp.addLayer GimpImageType.grayaImage layer.get_name
          file.m_width file.m_height
          (convert_to_ldr settings (file.m_width * file.m_height) cY.get_pixel_data_type
            [cY.get_data, cY.get_data, cY.get_data, cA.get_data]))) ∧
    (∀ (pc : Nat) (ty : PixelDataType) (d : List Nat) (i j1 j2 : Nat),
      i < pc → j1 < 3 → j2 < 3 →
      (convert_to_ldr settings pc ty [d, d, d])[3 * i + j1]? =
        (convert_to_ldr settings pc ty [d, d, d])[3 * i + j2]?) := by
  refine ⟨?_, ?_, ?_, ?_, ?_⟩
  · unfold Converter.convert
    rw [hload]
    rfl
  · unfold allGrayscale
    simp [List.all_eq_true]
  · intro layer cY hgray hty hY
    unfold processLayer
    rw [hty, hgray, hY]
    rfl
  · intro layer cY cA hgray hty hY hA
    unfold processLayer
    rw [hty, hgray, hY, hA]
    rfl
  · intro pc ty d i j1 j2 hi hj1 hj2
    have hlen : ([d, d, d] : List (List Nat)).length = 3 := rfl
    have hD : ∀ jj, jj < 3 → ([d, d, d] : List (List Nat)).getD jj [] = d := by
      intro jj hjj
      interval_cases jj <;> rfl
    have e1 := convert_to_ldr_getElem settings pc ty [d, d, d] i j1 hi (by rw [hlen]; exact hj1)
    have e2 := convert_to_ldr_getElem settings pc ty [d, d, d] i j2 hi (by rw [hlen]; exact hj2)
    rw [hlen, hD j1 hj1] at e1
    rw [hlen, hD j2 hj2] at e2
    rw [e1, e2]

/-- C2 witness: a loaded 1x1 file with one Y layer and one RGB layer: the
canvas is Color, and the Y layer is widened to the 3-fold replicated
luminance buffer. -/
theorem claim_C2_witness :
    ((Converter.convert mixedFile defaultSettings).ops.head? =
      some (SinkOp.createImage
        (if allGrayscale mixedFile then GimpImageBaseType.gray else GimpImageBaseType.rgb)
        mixedFile.m_width mixedFile.m_height)) ∧
    allGrayscale mixedFile = false ∧
    processLayer defaultSettings (allGrayscale mixedFile) mixedFile.m_width
        mixedFile.m_height yOnlyLayer =
      Except.ok (SinkOp.addLayer GimpImageType.grayImage yOnlyLayer.get_name
        mixedFile.m_width mixedFile.m_height
        (convert_to_ldr defaultSettings (mixedFile.m_width * mixedFile.m_height)
          chY.get_pixel_data_type [chY.get_data, chY.get_data, chY.get_data])) :=
  ⟨(claim_C2_grayscale_decision mixedFile defaultSettings rfl).1,
   by with_unfolding_all rfl,
   (claim_C2_grayscale_decision mixedFile defaultSettings rfl).2.2.1 yOnlyLayer chY
     (by with_unfolding_all rfl) (by with_unfolding_all rfl) (by with_unfolding_all rfl)⟩

/-- C6: on a loaded file whose layers are pre ++ (undefined layer) :: post,
where every layer of pre converts, convert creates the (necessarily Color)
canvas, keeps the sink ops of pre, stops at the undefined layer with the
"not implemented" message, and never touches post. (layer_type_to_string
returns "unknown" for every input — its switch labels lack the case
keyword — so the message reads "not implemented: unknown".) -/
theorem claim_C6_stops_at_undefined (file : File) (settings : ConversionSettings)
    (pre post : List Layer) (u : Layer) (preOps : List SinkOp)
    (hload : file.is_loaded = true)
    (hlayers : file.m_layers = pre ++ u :: post)
    (hu : determine_layer_type u = LayerType.undefined)
    (hpre : pre.mapM (processLayer settings false file.m_width file.m_height) =
      Except.ok preOps) :
    Converter.convert file settings =
      { ops := SinkOp.createImage GimpImageBaseType.rgb file.m_width file.m_height :: preOps,
        error := some (ConvErr.msg "not implemented: unknown") } := by
  have hgray : allGrayscale file = false := by
    unfold allGrayscale
    rw [hlayers, List.all_append, List.all_cons, hu]
    simp
  have hu' : processLayer settings false file.m_width file.m_height u =
      Except.error (ConvErr.msg "not implemented: unknown") := by
    unfold processLayer
    rw [hu]
    with_unfolding_all rfl
  unfold Converter.convert
  rw [hload, hgray, hlayers]
  rw [convertLayers_of_mapM_ok settings false file.m_width file.m_height pre preOps
    (u :: post) hpre]
  simp only [convertLayers, hu']
  simp

/-- C6 witness: a loaded 1x1 file whose first layer is Undefined followed by
an RGB layer: only the canvas-creation op happens, the error is the
"not implemented" message, and the RGB layer is never attempted. -/
theorem claim_C6_witness :
    Converter.convert undefFirstFile defaultSettings =
      { ops := [SinkOp.createImage GimpImageBaseType.rgb undefFirstFile.m_width
          undefFirstFile.m_height],
        error := some (ConvErr.msg "not implemented: unknown") } :=
  claim_C6_stops_at_undefined undefFirstFile defaultSettings [] [rgbLayer] undefLayer []
    rfl rfl (by with_unfolding_all rfl) rfl
